import Mathlib

/-!
Shallow embedding of the Darukaa Earth backend (FastAPI + SQLAlchemy + bcrypt
+ python-jose), translated from the repository sources:

  backend/app/core/config.py    -- Settings (defaults)
  backend/app/core/security.py  -- verify_password, get_password_hash,
                                   create_access_token, get_current_user
  backend/app/api/v1/auth.py    -- login
  backend/app/api/v1/projects.py-- update_project
  backend/app/api/v1/sites.py   -- calculate_area_hectares, create_site,
                                   _generate_analytics_for_site, get_site,
                                   update_site

Python floats are modelled as exact rationals, byte strings as lists of
naturals, datetimes as integer seconds and dates as integer day numbers.
Randomness (bcrypt salts, the analytics uniform draws) is passed in as an
explicit argument.  External primitives (the bcrypt C library, the jose JWT
codec, shapely geometry parsing) are modelled by concrete executable
functions that expose exactly the behaviour the repository code relies on.
-/

namespace Darukaa

/-! ## UTF-8 encoding (Python str.encode) -/

/-- UTF-8 encoding of a single code point, as byte values. -/
def charUtf8 (c : Char) : List Nat :=
  let n := c.toNat
  if n < 0x80 then [n]
  else if n < 0x800 then [0xC0 + n / 0x40, 0x80 + n % 0x40]
  else if n < 0x10000 then
    [0xE0 + n / 0x1000, 0x80 + (n / 0x40) % 0x40, 0x80 + n % 0x40]
  else
    [0xF0 + n / 0x40000, 0x80 + (n / 0x1000) % 0x40,
     0x80 + (n / 0x40) % 0x40, 0x80 + n % 0x40]

/-- Python `s.encode("utf-8")`: the UTF-8 byte sequence of a string. -/
def strEncode (s : String) : List Nat :=
  (s.data.map charUtf8).flatten

/-! ## bcrypt primitive (the pypi `bcrypt` package)

A bcrypt hash string is modelled as a record carrying its version marker
(`"$2b$"`), the salt that was drawn, and the key-derivation digest.  The
digest function is a concrete injective pairing of password bytes and salt:
all the repository relies on is that for a fixed salt, equal (at most
72-byte) passwords give equal digests and distinct ones give distinct
digests.  Modern `bcrypt` (>= 4.1) refuses passwords longer than 72 bytes
with a `ValueError` instead of silently truncating -- which is exactly why
`get_password_hash` truncates by hand; `bcryptCheckpw` models that refusal
as `Except.error`. -/

/-- A parsed bcrypt hash string (`$2b$...` output of `bcrypt.hashpw`). -/
structure BHash where
  marker : String
  salt : List Nat
  digest : List Nat
  deriving Repr, DecidableEq

/-- The key-derivation core: an injective pairing of password and salt. -/
def bcryptDigest (pw salt : List Nat) : List Nat :=
  salt ++ [256] ++ pw

/-- `bcrypt.hashpw(password, salt)` for a password of at most 72 bytes. -/
def bcryptHashpw (pw salt : List Nat) : BHash :=
  { marker := "$2b$", salt := salt, digest := bcryptDigest pw salt }

/-- `bcrypt.checkpw(password, hash)`: raises (models `ValueError`) when the
candidate password exceeds 72 bytes, otherwise recomputes the digest with
the salt stored in the hash and compares. -/
def bcryptCheckpw (pw : List Nat) (h : BHash) : Except Unit Bool :=
  if pw.length > 72 then .error ()
  else .ok (decide (bcryptDigest pw h.salt = h.digest))

/-- Python `s.startswith(p)`, as a character-level prefix test. -/
def strStartsWith (s p : String) : Bool :=
  p.data.isPrefixOf s.data

/-! ## security.py : password hashing -/

/-- `get_password_hash` (security.py lines 54-69): encode to bytes, truncate
to 72 bytes if longer, hash with a fresh salt (the salt drawn by
`bcrypt.gensalt()` is an explicit argument here). -/
def get_password_hash (password : String) (salt : List Nat) : BHash :=
  let password_bytes := strEncode password
  let password_bytes :=
    if password_bytes.length > 72 then password_bytes.take 72 else password_bytes
  bcryptHashpw password_bytes salt

/-- `verify_password` (security.py lines 15-51): `false` on a missing/empty
stored hash (modelled by `none`), `false` when the stored hash does not
start with `"$2"`, otherwise `bcrypt.checkpw` on the encoded bytes; any
exception from the primitive is swallowed and reported as `false`. -/
def verify_password (plain_password : String) (hashed_password : Option BHash) : Bool :=
  match hashed_password with
  | none => false
  | some h =>
    if ¬ (strStartsWith h.marker "$2") then false
    else
      let plain_password_bytes := strEncode plain_password
      match bcryptCheckpw plain_password_bytes h with
      | .error _ => false
      | .ok result => result

/-! ## config.py : Settings (defaults, as loaded with no environment overrides) -/

/-- `Settings` (config.py): the configuration fields the security layer
reads.  Values are the declared defaults. -/
structure Settings where
  SECRET_KEY : String
  ALGORITHM : String
  ACCESS_TOKEN_EXPIRE_MINUTES : Int
  deriving Repr, DecidableEq

/-- The process-wide `settings` object with its declared defaults. -/
def settings : Settings :=
  { SECRET_KEY := "dev-secret-key-change-in-production-use-secrets-token-urlsafe-32"
    ALGORITHM := "HS256"
    ACCESS_TOKEN_EXPIRE_MINUTES := 30 }

/-! ## JWT primitive (python-jose)

A signed token is modelled as a record carrying the claim set (claims other
than `"exp"` as a string-to-string association list), the `"exp"` claim in
seconds since the epoch, and the secret and algorithm it was signed with.
`jwt.decode` succeeds exactly when the verification secret and accepted
algorithms match the signing ones and the token is not expired (jose
rejects when `exp < now`, with zero leeway). -/

/-- An encoded JWT, as produced by `jwt.encode(claims, secret, algorithm)`. -/
structure JwtToken where
  data : List (String × String)
  exp : Int
  secret : String
  alg : String
  deriving Repr, DecidableEq

/-- Association-list lookup, modelling `payload.get(key)`. -/
def claimGet (data : List (String × String)) (key : String) : Option String :=
  (data.find? (fun kv => kv.1 == key)).map (fun kv => kv.2)

/-- `jwt.decode(token, secret, algorithms)` at time `now` (seconds):
returns the payload claims, or `none` for any signature/expiry failure
(`JWTError`). -/
def jwtDecode (t : JwtToken) (secret : String) (algorithms : List String)
    (now : Int) : Option (List (String × String)) :=
  if t.secret == secret && algorithms.contains t.alg && !(t.exp < now) then
    some t.data
  else
    none

/-! ## Data model (models/user.py, models/project.py, models/site.py,
models/analytics.py)

`created_at` timestamps are integer seconds; analytics dates are integer
day numbers.  The database-managed `updated_at` column (`onupdate`) is
maintained by the external engine, not by handler code, and is not part of
the embedded state.  Site metadata is a free-form JSON document, modelled
as an association list passed through uninterpreted. -/

/-- A free-form metadata document (`Dict[str, Any]`). -/
abbrev MetaDoc := List (String × String)

/-- The `users` table row. -/
structure UserRec where
  id : Nat
  email : String
  username : String
  hashed_password : Option BHash
  full_name : Option String
  deriving Repr, DecidableEq

/-- The `projects` table row. -/
structure ProjectRec where
  id : Nat
  name : String
  description : Option String
  user_id : Nat
  created_at : Int
  deriving Repr, DecidableEq

/-- A linear ring: a list of (x, y) coordinates in degrees. -/
abbrev Ring := List (ℚ × ℚ)

/-- A shapely polygon: exterior ring first, then interior rings (holes). -/
structure Polygon where
  rings : List Ring
  deriving Repr, DecidableEq

/-- A stored PostGIS geometry: a polygon tagged with its SRID. -/
structure StoredGeom where
  geom : Polygon
  srid : Nat
  deriving Repr, DecidableEq

/-- The `sites` table row (`site_metadata` is the attribute name mapped to
the `"metadata"` column). -/
structure SiteRec where
  id : Nat
  name : String
  project_id : Nat
  geometry : StoredGeom
  area_hectares : Option ℚ
  carbon_sequestration_tonnes : ℚ
  biodiversity_score : ℚ
  site_metadata : Option MetaDoc
  created_at : Int
  deriving Repr, DecidableEq

/-- The `site_analytics` table row (without the id/created_at columns the
database fills in). -/
structure AnalyticsRec where
  site_id : Nat
  date : Int
  carbon_sequestration_tonnes : ℚ
  biodiversity_score : ℚ
  tree_count : Int
  vegetation_cover_percentage : ℚ
  soil_carbon_percentage : ℚ
  deriving Repr, DecidableEq

/-- Default row used only to state list-indexing properties. -/
def defaultAnalyticsRec : AnalyticsRec :=
  { site_id := 0, date := 0, carbon_sequestration_tonnes := 0
    biodiversity_score := 0, tree_count := 0
    vegetation_cover_percentage := 0, soil_carbon_percentage := 0 }

/-- The database state: the four tables. -/
structure DB where
  users : List UserRec
  projects : List ProjectRec
  sites : List SiteRec
  analytics : List AnalyticsRec
  deriving Repr, DecidableEq

/-- An `HTTPException` surfaced to the client: status code, detail message,
and the optional `WWW-Authenticate` header value. -/
structure HErr where
  status_code : Nat
  detail : String
  www_authenticate : Option String
  deriving Repr, DecidableEq

/-! ## security.py : tokens -/

/-- Python truthiness of an `Optional[timedelta]` (seconds): `None` and the
zero timedelta are falsy. -/
def timedeltaTruthy : Option Int → Bool
  | none => false
  | some d => d != 0

/-- `create_access_token` (security.py lines 72-80): copy the claims, set
`"exp"` to now plus the explicit lifetime if one is given (and truthy),
else now plus the configured default lifetime, and sign with the configured
secret and algorithm.  `now` is `datetime.utcnow()` in epoch seconds;
`expires_delta` is in seconds. -/
def create_access_token (data : List (String × String))
    (expires_delta : Option Int) (now : Int) : JwtToken :=
  let expire :=
    if timedeltaTruthy expires_delta then now + expires_delta.getD 0
    else now + settings.ACCESS_TOKEN_EXPIRE_MINUTES * 60
  { data := data, exp := expire
    secret := settings.SECRET_KEY, alg := settings.ALGORITHM }

/-- The single 401 `credentials_exception` of `get_current_user`. -/
def credentials_exception : HErr :=
  { status_code := 401, detail := "Could not validate credentials"
    www_authenticate := some "Bearer" }

/-- `get_current_user` (security.py lines 83-99): decode the bearer token
with the configured secret/algorithm (any `JWTError` -> 401), read the
`"sub"` claim (missing -> 401), look the username up in the `users` table
(missing -> 401), else return the user. -/
def get_current_user (token : JwtToken) (db : DB) (now : Int) :
    Except HErr UserRec :=
  match jwtDecode token settings.SECRET_KEY [settings.ALGORITHM] now with
  | none => .error credentials_exception
  | some payload =>
    match claimGet payload "sub" with
    | none => .error credentials_exception
    | some username =>
      match db.users.find? (fun u => u.username == username) with
      | none => .error credentials_exception
      | some user => .ok user

/-! ## auth.py : login -/

/-- The login request body (`UserLogin` schema). -/
structure UserLogin where
  username : String
  password : String
  deriving Repr, DecidableEq

/-- The login response body (`Token` schema). -/
structure TokenResponse where
  access_token : JwtToken
  token_type : String
  deriving Repr, DecidableEq

/-- The one 401 error that every `login` failure path raises. -/
def incorrectCredentials : HErr :=
  { status_code := 401, detail := "Incorrect username or password"
    www_authenticate := some "Bearer" }

/-- Python `str.strip()`: drop whitespace from both ends. -/
def pyStrip (s : String) : String :=
  ⟨((s.data.dropWhile Char.isWhitespace).reverse.dropWhile Char.isWhitespace).reverse⟩

/-- Line 62 of auth.py: `username.strip() if user_credentials.username
else ""` (an empty username is falsy). -/
def loginUsername (user_credentials : UserLogin) : String :=
  if user_credentials.username ≠ "" then pyStrip user_credentials.username else ""

/-- `login` (auth.py lines 59-105): strip whitespace from the username (an
empty/falsy username becomes `""`), 401 if the result is empty, 401 if no
user has that username, 401 if password verification fails; on success
issue a token for `{"sub": username}` with an explicit lifetime of the
configured minutes. -/
def login (user_credentials : UserLogin) (db : DB) (now : Int) :
    Except HErr TokenResponse :=
  if loginUsername user_credentials = "" then .error incorrectCredentials
  else
    match db.users.find? (fun u => u.username == loginUsername user_credentials) with
    | none => .error incorrectCredentials
    | some user =>
      if ¬ (verify_password user_credentials.password user.hashed_password) then
        .error incorrectCredentials
      else
        .ok { access_token :=
                create_access_token [("sub", user.username)]
                  (some (settings.ACCESS_TOKEN_EXPIRE_MINUTES * 60)) now
              token_type := "bearer" }

/-! ## Geometry (shapely `shape`, `.area`; sites.py helpers)

A GeoJSON value is a type tag plus coordinate rings.  `shapeParse` models
`shapely.geometry.shape` on the site-creation path: it accepts a
`"Polygon"` with at least one ring, every ring having at least 4
coordinate pairs, and fails (raises, modelled as `none`) otherwise.
`polygonArea` is shapely's planar `.area`: the absolute shoelace area of
the exterior ring minus those of the holes, in square degrees. -/

/-- An inbound GeoJSON geometry object. -/
structure GeoJSON where
  tag : String
  coordinates : List Ring
  deriving Repr, DecidableEq

/-- `shapely.geometry.shape` on a GeoJSON mapping: `none` models the
exception raised for a non-polygon tag or malformed coordinate rings. -/
def shapeParse (g : GeoJSON) : Option Polygon :=
  if g.tag == "Polygon" && !g.coordinates.isEmpty
      && g.coordinates.all (fun r => r.length ≥ 4) then
    some { rings := g.coordinates }
  else
    none

/-- Auxiliary for the shoelace formula: sum of cross terms walking the
ring, closing back to the first vertex. -/
def shoelaceAux (first : ℚ × ℚ) : Ring → ℚ
  | [] => 0
  | [p] => p.1 * first.2 - first.1 * p.2
  | p :: q :: rest => (p.1 * q.2 - q.1 * p.2) + shoelaceAux first (q :: rest)

/-- Twice the signed shoelace area of a ring. -/
def shoelace : Ring → ℚ
  | [] => 0
  | p :: rest => shoelaceAux p (p :: rest)

/-- Unsigned planar area of one ring (square degrees). -/
def ringArea (r : Ring) : ℚ := |shoelace r| / 2

/-- Shapely `.area` of a polygon: exterior minus holes. -/
def polygonArea (p : Polygon) : ℚ :=
  match p.rings with
  | [] => 0
  | ext :: holes => ringArea ext - (holes.map ringArea).sum

/-- `calculate_area_hectares` (sites.py lines 27-38): parse the GeoJSON,
take the planar area in square degrees, scale by 111000 squared (metres
per degree at the equator), divide by 10000 (m^2 per hectare), and floor
the result at 0.1 ha; on any parsing failure, swallow the error and return
the 1.0 ha fallback. -/
def calculate_area_hectares (geometry_geojson : GeoJSON) : ℚ :=
  match shapeParse geometry_geojson with
  | some geom =>
    let area_m2 := polygonArea geom * (111000 : ℚ) ^ 2
    let area_hectares := area_m2 / 10000
    max area_hectares (1 / 10)
  | none => 1

/-! ## Python numeric helpers -/

/-- Python `round` to an integer: round half to even. -/
def pyRound (x : ℚ) : ℤ :=
  let f := ⌊x⌋
  let frac := x - f
  if frac < 1 / 2 then f
  else if 1 / 2 < frac then f + 1
  else if f % 2 = 0 then f else f + 1

/-- Python `round(x, d)`. -/
def roundTo (x : ℚ) (d : Nat) : ℚ :=
  (pyRound (x * 10 ^ d) : ℚ) / 10 ^ d

/-- Python `int()` on a float: truncation toward zero. -/
def pyInt (x : ℚ) : ℤ :=
  if 0 ≤ x then ⌊x⌋ else -⌊-x⌋

/-- Python truthiness of an `Optional[float]`: `None` and `0.0` are falsy. -/
def optionFloatFalsy : Option ℚ → Bool
  | none => true
  | some a => a == 0

/-- Python `x or d` on an `Optional[float]`. -/
def pyOr (x : Option ℚ) (d : ℚ) : ℚ :=
  if optionFloatFalsy x then d else x.getD d

/-! ## sites.py : analytics generator -/

/-- One row's worth of uniform draws made by `_generate_analytics_for_site`:
`random.uniform(2, 5)`, `(60, 95)`, `(100, 300)`, `(70, 95)`,
`(2.5, 4.5)` respectively. -/
structure Draws where
  carbon : ℚ
  bio : ℚ
  tree : ℚ
  veg : ℚ
  soil : ℚ
  deriving Repr, DecidableEq

/-- The body of the generator loop (sites.py lines 146-164) for month
index `i`. -/
def analyticsRow (site_id : Nat) (area_hectares : ℚ) (base_date : Int)
    (i : Nat) (d : Draws) : AnalyticsRec :=
  let carbon_base := area_hectares * d.carbon * ((12 : ℚ) - (i : ℚ)) / 12
  { site_id := site_id
    date := base_date - 30 * (i : Int)
    carbon_sequestration_tonnes := roundTo carbon_base 2
    biodiversity_score := roundTo d.bio 1
    tree_count := pyInt (area_hectares * d.tree)
    vegetation_cover_percentage := roundTo d.veg 1
    soil_carbon_percentage := roundTo d.soil 2 }

/-- `_generate_analytics_for_site` (sites.py lines 142-165): 12 rows at
30-day steps back from `base_date` (`date.today()`), with the random
draws passed in explicitly. -/
def _generate_analytics_for_site (site_id : Nat) (area_hectares : ℚ)
    (base_date : Int) (draws : Nat → Draws) : List AnalyticsRec :=
  (List.range 12).map (fun i => analyticsRow site_id area_hectares base_date i (draws i))

/-! ## sites.py : request/response shapes and shared errors -/

/-- The `SiteCreate` request schema. -/
structure SiteCreate where
  name : String
  area_hectares : Option ℚ
  metadata : Option MetaDoc
  project_id : Nat
  geometry : GeoJSON
  carbon_sequestration_tonnes : Option ℚ
  biodiversity_score : Option ℚ
  deriving Repr, DecidableEq

/-- The `SiteResponse` schema. -/
structure SiteResponse where
  id : Nat
  name : String
  project_id : Nat
  geometry : GeoJSON
  area_hectares : Option ℚ
  carbon_sequestration_tonnes : ℚ
  biodiversity_score : ℚ
  metadata : Option MetaDoc
  created_at : Int
  deriving Repr, DecidableEq

/-- The `SiteDetailResponse` schema: a site response plus its analytics
history, newest first. -/
structure SiteDetailResponse where
  site : SiteResponse
  analytics : List AnalyticsRec
  deriving Repr, DecidableEq

/-- The 404 raised when a project lookup scoped to the caller fails. -/
def projectNotFound : HErr :=
  { status_code := 404, detail := "Project not found", www_authenticate := none }

/-- The 404 raised when a site id does not exist. -/
def siteNotFound : HErr :=
  { status_code := 404, detail := "Site not found", www_authenticate := none }

/-- The 403 raised when a site exists but its parent project is not the
caller's. -/
def accessDenied : HErr :=
  { status_code := 403, detail := "Access denied", www_authenticate := none }

/-- The 400 raised when inbound GeoJSON fails conversion to storage
geometry. -/
def invalidGeometry : HErr :=
  { status_code := 400, detail := "Invalid geometry", www_authenticate := none }

/-- `geometry_to_geojson` (sites.py lines 41-55) on a stored geometry: the
primary `to_shape`/`mapping` path, which succeeds on every geometry this
embedding can store. -/
def geometry_to_geojson (geometry : StoredGeom) : GeoJSON :=
  { tag := "Polygon", coordinates := geometry.geom.rings }

/-! ## sites.py : create_site -/

/-- Lines 76-78 of sites.py: `if not area_hectares:` recompute from the
geometry (so an absent area and an explicit 0 both trigger estimation). -/
def effectiveArea (supplied : Option ℚ) (g : GeoJSON) : ℚ :=
  if optionFloatFalsy supplied then calculate_area_hectares g else supplied.getD 0

/-- `create_site` (sites.py lines 58-139): ownership-scoped project lookup
(404), area estimation when the supplied area is falsy, GeoJSON-to-storage
conversion (400 on parse failure, SRID 4326), persist the site, best-effort
analytics generation, geometry back to GeoJSON for the response.
`created_at` is the database timestamp, `today` the generator's base date,
`new_site_id` the id the database assigns, `draws` the generator's random
draws. -/
def create_site (site : SiteCreate) (current_user : UserRec) (db : DB)
    (created_at : Int) (today : Int) (new_site_id : Nat) (draws : Nat → Draws) :
    Except HErr (DB × SiteResponse) :=
  match db.projects.find?
      (fun p => p.id == site.project_id && p.user_id == current_user.id) with
  | none => .error projectNotFound
  | some _ =>
    let area_hectares := effectiveArea site.area_hectares site.geometry
    match shapeParse site.geometry with
    | none => .error invalidGeometry
    | some geom =>
      let postgis_geom : StoredGeom := { geom := geom, srid := 4326 }
      let db_site : SiteRec :=
        { id := new_site_id
          name := site.name
          project_id := site.project_id
          geometry := postgis_geom
          area_hectares := some area_hectares
          carbon_sequestration_tonnes := pyOr site.carbon_sequestration_tonnes 0
          biodiversity_score := pyOr site.biodiversity_score 0
          site_metadata := site.metadata
          created_at := created_at }
      let db1 : DB := { db with sites := db.sites ++ [db_site] }
      let db2 : DB :=
        { db1 with analytics :=
            db1.analytics ++ _generate_analytics_for_site new_site_id area_hectares today draws }
      let geom_geojson := geometry_to_geojson db_site.geometry
      .ok (db2,
        { id := db_site.id
          name := db_site.name
          project_id := db_site.project_id
          geometry := { tag := "Polygon", coordinates := geom_geojson.coordinates }
          area_hectares := db_site.area_hectares
          carbon_sequestration_tonnes := db_site.carbon_sequestration_tonnes
          biodiversity_score := db_site.biodiversity_score
          metadata := db_site.site_metadata
          created_at := db_site.created_at })

/-! ## sites.py : get_site -/

/-- Insert into a date-descending list, keeping it date-descending. -/
def insertDateDesc (a : AnalyticsRec) : List AnalyticsRec → List AnalyticsRec
  | [] => [a]
  | b :: rest => if b.date ≤ a.date then a :: b :: rest else b :: insertDateDesc a rest

/-- `ORDER BY date DESC` over the filtered analytics rows. -/
def sortByDateDesc (l : List AnalyticsRec) : List AnalyticsRec :=
  l.foldr insertDateDesc []

/-- `get_site` (sites.py lines 212-277): load by site id alone (404 when
absent), then separately check the parent project is the caller's (403
when not), then build the detail response with the site's analytics
ordered newest first. -/
def get_site (site_id : Nat) (current_user : UserRec) (db : DB) :
    Except HErr SiteDetailResponse :=
  match db.sites.find? (fun s => s.id == site_id) with
  | none => .error siteNotFound
  | some site =>
    match db.projects.find?
        (fun p => p.id == site.project_id && p.user_id == current_user.id) with
    | none => .error accessDenied
    | some _ =>
      let geom_geojson := geometry_to_geojson site.geometry
      let analytics_list :=
        sortByDateDesc (db.analytics.filter (fun a => a.site_id == site_id))
      .ok { site :=
              { id := site.id
                name := site.name
                project_id := site.project_id
                geometry := { tag := "Polygon", coordinates := geom_geojson.coordinates }
                area_hectares := site.area_hectares
                carbon_sequestration_tonnes := site.carbon_sequestration_tonnes
                biodiversity_score := site.biodiversity_score
                metadata := site.site_metadata
                created_at := site.created_at }
            analytics := analytics_list }

/-! ## Partial updates (schemas/project.py, schemas/site.py, projects.py,
sites.py)

A JSON request field is absent, explicitly `null`, or a value.  Pydantic
validates an `Optional[T] = None` field by mapping both `absent` and
`null` to `None` -- that mapping is `parseOpt`.  The handlers then apply
only the fields that are not `None`. -/

/-- A field of an inbound JSON update request body. -/
inductive JField (α : Type) where
  | absent : JField α
  | null : JField α
  | value : α → JField α
  deriving Repr, DecidableEq

/-- Pydantic validation of an `Optional[T] = None` field. -/
def parseOpt {α : Type} : JField α → Option α
  | .absent => none
  | .null => none
  | .value a => some a

/-- The wire-level `ProjectUpdate` request body. -/
structure ProjectUpdateWire where
  name : JField String
  description : JField String
  deriving Repr, DecidableEq

/-- The validated `ProjectUpdate` schema (all fields optional). -/
structure ProjectUpdate where
  name : Option String
  description : Option String
  deriving Repr, DecidableEq

/-- Pydantic validation of a `ProjectUpdate` body. -/
def parseProjectUpdate (w : ProjectUpdateWire) : ProjectUpdate :=
  { name := parseOpt w.name, description := parseOpt w.description }

/-- The wire-level `SiteUpdate` request body. -/
structure SiteUpdateWire where
  name : JField String
  area_hectares : JField ℚ
  carbon_sequestration_tonnes : JField ℚ
  biodiversity_score : JField ℚ
  metadata : JField MetaDoc
  deriving Repr, DecidableEq

/-- The validated `SiteUpdate` schema (all fields optional). -/
structure SiteUpdate where
  name : Option String
  area_hectares : Option ℚ
  carbon_sequestration_tonnes : Option ℚ
  biodiversity_score : Option ℚ
  metadata : Option MetaDoc
  deriving Repr, DecidableEq

/-- Pydantic validation of a `SiteUpdate` body. -/
def parseSiteUpdate (w : SiteUpdateWire) : SiteUpdate :=
  { name := parseOpt w.name
    area_hectares := parseOpt w.area_hectares
    carbon_sequestration_tonnes := parseOpt w.carbon_sequestration_tonnes
    biodiversity_score := parseOpt w.biodiversity_score
    metadata := parseOpt w.metadata }

/-- Lines 115-118 of projects.py: apply exactly the fields that are not
`None` to the loaded project row. -/
def updatedProject (project : ProjectRec) (pu : ProjectUpdate) : ProjectRec :=
  let project :=
    match pu.name with
    | some n => { project with name := n }
    | none => project
  let project :=
    match pu.description with
    | some d => { project with description := some d }
    | none => project
  project

/-- Lines 307-316 of sites.py: apply exactly the fields that are not
`None` to the loaded site row. -/
def updatedSite (site : SiteRec) (su : SiteUpdate) : SiteRec :=
  let site :=
    match su.name with
    | some n => { site with name := n }
    | none => site
  let site :=
    match su.area_hectares with
    | some a => { site with area_hectares := some a }
    | none => site
  let site :=
    match su.carbon_sequestration_tonnes with
    | some c => { site with carbon_sequestration_tonnes := c }
    | none => site
  let site :=
    match su.biodiversity_score with
    | some b => { site with biodiversity_score := b }
    | none => site
  let site :=
    match su.metadata with
    | some m => { site with site_metadata := some m }
    | none => site
  site

/-- The `ProjectResponse` schema. -/
structure ProjectResponse where
  id : Nat
  name : String
  description : Option String
  user_id : Nat
  created_at : Int
  site_count : Nat
  deriving Repr, DecidableEq

/-- `update_project` (projects.py lines 98-132): ownership-scoped lookup
(404), apply the non-`None` fields, commit, respond. -/
def update_project (project_id : Nat) (project_update : ProjectUpdate)
    (current_user : UserRec) (db : DB) : Except HErr (DB × ProjectResponse) :=
  match db.projects.find?
      (fun p => p.id == project_id && p.user_id == current_user.id) with
  | none => .error projectNotFound
  | some project =>
    let p2 := updatedProject project project_update
    let db2 : DB :=
      { db with projects := db.projects.map (fun p => if p.id == project.id then p2 else p) }
    .ok (db2,
      { id := p2.id
        name := p2.name
        description := p2.description
        user_id := p2.user_id
        created_at := p2.created_at
        site_count := (db2.sites.filter (fun s => s.project_id == p2.id)).length })

/-- `update_site` (sites.py lines 280-341): load by site id alone (404),
check parent-project ownership (403), apply the non-`None` fields, commit,
convert the (untouched) stored geometry back to GeoJSON, respond. -/
def update_site (site_id : Nat) (site_update : SiteUpdate)
    (current_user : UserRec) (db : DB) : Except HErr (DB × SiteResponse) :=
  match db.sites.find? (fun s => s.id == site_id) with
  | none => .error siteNotFound
  | some site =>
    match db.projects.find?
        (fun p => p.id == site.project_id && p.user_id == current_user.id) with
    | none => .error accessDenied
    | some _ =>
      let s2 := updatedSite site site_update
      let db2 : DB :=
        { db with sites := db.sites.map (fun s => if s.id == site.id then s2 else s) }
      let geom_geojson := geometry_to_geojson s2.geometry
      .ok (db2,
        { id := s2.id
          name := s2.name
          project_id := s2.project_id
          geometry := { tag := "Polygon", coordinates := geom_geojson.coordinates }
          area_hectares := s2.area_hectares
          carbon_sequestration_tonnes := s2.carbon_sequestration_tonnes
          biodiversity_score := s2.biodiversity_score
          metadata := s2.site_metadata
          created_at := s2.created_at })

/-! ## Concrete fixtures used by witnesses and counterexamples -/

/-- A unit-square exterior ring. -/
def polyW : Polygon := { rings := [[(0, 0), (1, 0), (1, 1), (0, 1)]] }

/-- A well-formed GeoJSON polygon (the unit square). -/
def geoW : GeoJSON := { tag := "Polygon", coordinates := [[(0, 0), (1, 0), (1, 1), (0, 1)]] }

/-- A GeoJSON value that fails polygon parsing. -/
def badGeo : GeoJSON := { tag := "Point", coordinates := [] }

/-- A stored geometry for the fixture site. -/
def geomW : StoredGeom := { geom := polyW, srid := 4326 }

/-- Fixture user 1 (owns the fixture project). -/
def uW1 : UserRec :=
  { id := 1, email := "alice@example.com", username := "alice"
    hashed_password := none, full_name := none }

/-- Fixture user 2 (owns nothing). -/
def uW2 : UserRec :=
  { id := 2, email := "bob@example.com", username := "bob"
    hashed_password := none, full_name := none }

/-- Fixture project, owned by user 1. -/
def projW : ProjectRec :=
  { id := 1, name := "p", description := none, user_id := 1, created_at := 0 }

/-- Fixture site inside the fixture project. -/
def siteW : SiteRec :=
  { id := 1, name := "s", project_id := 1, geometry := geomW
    area_hectares := some 1, carbon_sequestration_tonnes := 0
    biodiversity_score := 0, site_metadata := none, created_at := 0 }

/-- Fixture database. -/
def dbW : DB := { users := [uW1, uW2], projects := [projW], sites := [siteW], analytics := [] }

/-- A fixed choice of generator draws (each at the low end of its range). -/
def cDraws : Nat → Draws := fun _ =>
  { carbon := 2, bio := 60, tree := 100, veg := 70, soil := 5 / 2 }

/-! ## C6 : area formula and floor -/

/-- Claim C6: for every GeoJSON polygon that parses successfully,
`calculate_area_hectares` returns the planar area scaled by 111000 squared
over 10000, floored at 0.1; whenever the converted area is below 0.1 the
result is exactly 0.1, and the result is never below 0.1. -/
theorem c6_area_formula_and_floor (g : GeoJSON) (p : Polygon)
    (h : shapeParse g = some p) :
    calculate_area_hectares g = max (polygonArea p * (111000 : ℚ) ^ 2 / 10000) (1 / 10)
    ∧ (polygonArea p * (111000 : ℚ) ^ 2 / 10000 < 1 / 10 →
        calculate_area_hectares g = 1 / 10)
    ∧ 1 / 10 ≤ calculate_area_hectares g := by
  unfold calculate_area_hectares
  rw [h]
  refine ⟨rfl, fun hlt => max_eq_right hlt.le, le_max_right _ _⟩

/-- Witness for C6 at the unit square, whose converted area is 1232100 ha. -/
theorem c6_witness :
    calculate_area_hectares geoW
      = max (polygonArea polyW * (111000 : ℚ) ^ 2 / 10000) (1 / 10)
    ∧ 1 / 10 ≤ calculate_area_hectares geoW := by
  have h := c6_area_formula_and_floor geoW polyW (by decide)
  exact ⟨h.1, h.2.2⟩

/-! ## C5 : get-site failure codes -/

/-- Claim C5: for an authenticated get-site request, a missing site id
fails with the 404 not-found error, while an existing site whose parent
project is not owned by the caller fails with the distinct 403
access-denied error; the existence check runs first, the ownership check
second. -/
theorem c5_get_site_404_vs_403 (site_id : Nat) (current_user : UserRec) (db : DB) :
    (db.sites.find? (fun s => s.id == site_id) = none →
      get_site site_id current_user db = .error siteNotFound)
    ∧ (∀ site, db.sites.find? (fun s => s.id == site_id) = some site →
        db.projects.find?
          (fun p => p.id == site.project_id && p.user_id == current_user.id) = none →
        get_site site_id current_user db = .error accessDenied)
    ∧ siteNotFound.status_code = 404
    ∧ accessDenied.status_code = 403
    ∧ siteNotFound ≠ accessDenied := by
  refine ⟨?_, ?_, rfl, rfl, by decide⟩
  · intro h
    unfold get_site
    rw [h]
  · intro site h1 h2
    unfold get_site
    rw [h1]
    dsimp only
    rw [h2]

/-- Witness for C5: in the fixture database, user 2 gets 404 for the
nonexistent site 99 and 403 for site 1, which belongs to user 1's
project. -/
theorem c5_witness :
    get_site 99 uW2 dbW = .error siteNotFound
    ∧ get_site 1 uW2 dbW = .error accessDenied := by
  refine ⟨(c5_get_site_404_vs_403 99 uW2 dbW).1 (by decide), ?_⟩
  exact (c5_get_site_404_vs_403 1 uW2 dbW).2.1 siteW (by decide) (by decide)

/-! ## C10 : login failure indistinguishability -/

/-- Every error `login` can return is the single 401
`incorrectCredentials` value. -/
lemma login_error_eq (c : UserLogin) (db : DB) (now : Int) (e : HErr)
    (h : login c db now = .error e) : e = incorrectCredentials := by
  unfold login at h
  split at h
  · exact (Except.error.inj h).symm
  · split at h
    · exact (Except.error.inj h).symm
    · split at h
      · exact (Except.error.inj h).symm
      · exact absurd h (by simp)

/-- The username `login` actually matches against is the stripped request
username. -/
lemma loginUsername_eq_strip (c : UserLogin) :
    loginUsername c = pyStrip c.username := by
  unfold loginUsername
  by_cases h : c.username = ""
  · rw [if_neg (by simp [h]), h]
    rfl
  · rw [if_pos h]

/-- Claim C10: every failed login — username empty after stripping, unknown
username, or failing password verification — returns the identical 401
response with detail `"Incorrect username or password"` and a
`WWW-Authenticate: Bearer` header, so two failures with different causes
are indistinguishable. -/
theorem c10_login_indistinguishable (c : UserLogin) (db : DB) (now : Int) :
    (pyStrip c.username = "" → login c db now = .error incorrectCredentials)
    ∧ (pyStrip c.username ≠ "" →
        db.users.find? (fun u => u.username == pyStrip c.username) = none →
        login c db now = .error incorrectCredentials)
    ∧ (∀ user, pyStrip c.username ≠ "" →
        db.users.find? (fun u => u.username == pyStrip c.username) = some user →
        verify_password c.password user.hashed_password = false →
        login c db now = .error incorrectCredentials)
    ∧ (incorrectCredentials.status_code = 401
        ∧ incorrectCredentials.detail = "Incorrect username or password"
        ∧ incorrectCredentials.www_authenticate = some "Bearer")
    ∧ (∀ (c2 : UserLogin) (db2 : DB) (now2 : Int) (e1 e2 : HErr),
        login c db now = .error e1 → login c2 db2 now2 = .error e2 → e1 = e2) := by
  refine ⟨?_, ?_, ?_, ⟨rfl, rfl, rfl⟩, ?_⟩
  · intro h
    unfold login
    rw [loginUsername_eq_strip, if_pos h]
  · intro h hfind
    unfold login
    rw [loginUsername_eq_strip, if_neg h, hfind]
  · intro user h hfind hverify
    unfold login
    rw [loginUsername_eq_strip, if_neg h, hfind]
    dsimp only
    rw [hverify]
    simp
  · intro c2 db2 now2 e1 e2 h1 h2
    rw [login_error_eq c db now e1 h1, login_error_eq c2 db2 now2 e2 h2]

/-- Witness for C10: the three failure causes on the fixture database —
whitespace-only username, unknown username, and a wrong password for
`alice` (whose stored hash is absent, so verification fails) — all return
the same response. -/
theorem c10_witness :
    login { username := "   ", password := "x" } dbW 0 = .error incorrectCredentials
    ∧ login { username := "ghost", password := "x" } dbW 0 = .error incorrectCredentials
    ∧ login { username := " alice ", password := "x" } dbW 0 = .error incorrectCredentials := by
  refine ⟨(c10_login_indistinguishable { username := "   ", password := "x" } dbW 0).1 (by decide),
    (c10_login_indistinguishable { username := "ghost", password := "x" } dbW 0).2.1
      (by decide) (by decide), ?_⟩
  exact (c10_login_indistinguishable { username := " alice ", password := "x" } dbW 0).2.2.1
    uW1 (by decide) (by decide) (by decide)

/-! ## C8 : explicit zero area is recomputed -/

/-- `calculate_area_hectares` is strictly positive: a parsed polygon gives
at least 0.1 and the fallback is 1.0. -/
lemma calculate_area_pos (g : GeoJSON) : 0 < calculate_area_hectares g := by
  unfold calculate_area_hectares
  cases shapeParse g with
  | none => norm_num
  | some geom => exact lt_of_lt_of_le (by norm_num) (le_max_right _ _)

/-- The area actually stored is never zero: a falsy supplied value is
replaced by the strictly positive estimate, and a truthy one is a nonzero
float. -/
lemma effectiveArea_ne_zero (s : Option ℚ) (g : GeoJSON) : effectiveArea s g ≠ 0 := by
  unfold effectiveArea
  split_ifs with h
  · exact ne_of_gt (calculate_area_pos g)
  · cases s with
    | none => simp [optionFloatFalsy] at h
    | some a =>
      simp only [optionFloatFalsy, beq_iff_eq] at h
      simpa using h

/-- Claim C8: a create-site request that supplies `area_hectares = 0` is
treated exactly like one that omits the field (the area is recomputed from
the geometry), and no successful creation ever stores or reports a zero
area. -/
theorem c8_zero_area_recomputed (name : String) (meta : Option MetaDoc)
    (pid : Nat) (g : GeoJSON) (c b : Option ℚ) (u : UserRec) (db : DB)
    (t0 t1 : Int) (nid : Nat) (draws : Nat → Draws) :
    create_site { name := name, area_hectares := some 0, metadata := meta
                  project_id := pid, geometry := g
                  carbon_sequestration_tonnes := c, biodiversity_score := b }
        u db t0 t1 nid draws
      = create_site { name := name, area_hectares := none, metadata := meta
                      project_id := pid, geometry := g
                      carbon_sequestration_tonnes := c, biodiversity_score := b }
          u db t0 t1 nid draws
    ∧ (∀ (site : SiteCreate) (db2 : DB) (resp : SiteResponse),
        create_site site u db t0 t1 nid draws = .ok (db2, resp) →
        resp.area_hectares ≠ some 0) := by
  constructor
  · unfold create_site
    have harea : effectiveArea (some 0) g = effectiveArea none g := by
      simp [effectiveArea, optionFloatFalsy]
    simp only [harea]
  · intro site db2 resp h
    unfold create_site at h
    split at h
    · exact absurd h (by simp)
    · split at h
      · exact absurd h (by simp)
      · rw [Except.ok.injEq, Prod.mk.injEq] at h
        have hresp := h.2
        intro hzero
        rw [← hresp] at hzero
        simp only [SiteResponse.mk.injEq] at hzero
        exact effectiveArea_ne_zero site.area_hectares site.geometry
          (Option.some.inj hzero)

/-- A placeholder response used as a `getD` fallback. -/
def respDummy : SiteResponse :=
  { id := 0, name := "", project_id := 0, geometry := badGeo
    area_hectares := none, carbon_sequestration_tonnes := 0
    biodiversity_score := 0, metadata := none, created_at := 0 }

/-- The fixture create-site request with no supplied area. -/
def c8req : SiteCreate :=
  { name := "s", area_hectares := none, metadata := none
    project_id := 1, geometry := geoW
    carbon_sequestration_tonnes := none, biodiversity_score := none }

/-- The concrete successful result of creating `c8req` on the fixture
database. -/
def c8out : DB × SiteResponse :=
  (create_site c8req uW1 dbW 0 0 2 cDraws).toOption.getD (dbW, respDummy)

/-- Witness for C8: creating the fixture site with an explicit zero area
equals creating it with the field absent, and the concrete successful
creation reports a nonzero area. -/
theorem c8_witness :
    create_site { name := "s", area_hectares := some 0, metadata := none
                  project_id := 1, geometry := geoW
                  carbon_sequestration_tonnes := none, biodiversity_score := none }
        uW1 dbW 0 0 2 cDraws
      = create_site c8req uW1 dbW 0 0 2 cDraws
    ∧ c8out.2.area_hectares ≠ some 0 := by
  refine ⟨(c8_zero_area_recomputed "s" none 1 geoW none none uW1 dbW 0 0 2 cDraws).1, ?_⟩
  exact (c8_zero_area_recomputed "s" none 1 geoW none none uW1 dbW 0 0 2 cDraws).2
    c8req c8out.1 c8out.2 (by rfl)

/-! ## C2 / C3 : password round trip and truncation -/

/-- A 72-byte password (72 ASCII `a`s). -/
def pw72 : String := "aaaaaaaaaaaaaaaaaaaaaaaaaaaaaaaaaaaaaaaaaaaaaaaaaaaaaaaaaaaaaaaaaaaaaaaa"

/-- A 73-byte password (73 ASCII `a`s). -/
def pwA : String := "aaaaaaaaaaaaaaaaaaaaaaaaaaaaaaaaaaaaaaaaaaaaaaaaaaaaaaaaaaaaaaaaaaaaaaaaa"

/-- A 73-byte password agreeing with `pwA` on its first 72 bytes but
differing afterward. -/
def pwB : String := "aaaaaaaaaaaaaaaaaaaaaaaaaaaaaaaaaaaaaaaaaaaaaaaaaaaaaaaaaaaaaaaaaaaaaaaab"

/-- The byte truncation in `get_password_hash` is `List.take 72` whether or
not it fires. -/
lemma hash_bytes_take (l : List Nat) :
    (if l.length > 72 then l.take 72 else l) = l.take 72 := by
  split_ifs with h
  · rfl
  · exact (List.take_of_length_le (by omega)).symm

/-- `get_password_hash` hashes exactly the first 72 encoded bytes. -/
lemma get_password_hash_take (password : String) (salt : List Nat) :
    get_password_hash password salt = bcryptHashpw ((strEncode password).take 72) salt := by
  unfold get_password_hash
  dsimp only
  rw [hash_bytes_take]

/-- Claim C2: when the password's UTF-8 encoding is at most 72 bytes,
verifying it against its own fresh hash succeeds; when the encoding
exceeds 72 bytes, the hash is taken over the truncated bytes but the
verification primitive rejects the over-long candidate and the swallowed
error makes verification return false. -/
theorem c2_password_roundtrip (password : String) (salt : List Nat) :
    ((strEncode password).length ≤ 72 →
      verify_password password (some (get_password_hash password salt)) = true)
    ∧ (72 < (strEncode password).length →
      verify_password password (some (get_password_hash password salt)) = false) := by
  constructor
  · intro hle
    have hnot : ¬ (strEncode password).length > 72 := by omega
    have hmk : ¬ (¬ strStartsWith "$2b$" "$2" = true) := by decide
    rw [get_password_hash_take]
    unfold verify_password bcryptHashpw bcryptCheckpw
    dsimp only
    rw [if_neg hmk, if_neg hnot, List.take_of_length_le hle]
    simp
  · intro hgt
    have hmk : ¬ (¬ strStartsWith "$2b$" "$2" = true) := by decide
    rw [get_password_hash_take]
    unfold verify_password bcryptHashpw bcryptCheckpw
    dsimp only
    rw [if_neg hmk, if_pos hgt]

/-- Witness for C2: a short password round-trips; the 73-byte `pwA` fails
verification against its own hash. -/
theorem c2_witness :
    verify_password "secret" (some (get_password_hash "secret" [7])) = true
    ∧ verify_password pwA (some (get_password_hash pwA [7])) = false :=
  ⟨(c2_password_roundtrip "secret" [7]).1 (by decide),
   (c2_password_roundtrip pwA [7]).2 (by decide)⟩

/-- Counterexample to C3 as stated: `pwA` and `pwB` agree on their first
72 bytes and differ afterward, yet verifying `pwA` against a hash produced
from `pwB` returns false (the verification primitive rejects the 73-byte
candidate and the error is swallowed), so `verify_password` does not
accept either password against a hash produced from the other. -/
theorem c3_counterexample :
    (strEncode pwA).take 72 = (strEncode pwB).take 72
    ∧ strEncode pwA ≠ strEncode pwB
    ∧ verify_password pwA (some (get_password_hash pwB [7])) = false := by
  refine ⟨by decide, by decide, by decide⟩

/-- Claim C3 as amended: two passwords agreeing on their first 72 encoded
bytes hash identically (for the same salt), and `verify_password` accepts
one against a hash produced from the other exactly when the candidate's
own encoding is at most 72 bytes; an over-long candidate is rejected. -/
theorem c3_hash_truncation_amended (p q : String) (salt : List Nat)
    (h : (strEncode p).take 72 = (strEncode q).take 72) :
    get_password_hash p salt = get_password_hash q salt
    ∧ ((strEncode p).length ≤ 72 →
        verify_password p (some (get_password_hash q salt)) = true)
    ∧ (72 < (strEncode p).length →
        verify_password p (some (get_password_hash q salt)) = false) := by
  refine ⟨by rw [get_password_hash_take, get_password_hash_take, h], ?_, ?_⟩
  · intro hle
    have hpq : strEncode p = (strEncode q).take 72 := by
      rw [← h]
      exact (List.take_of_length_le hle).symm
    have hnot : ¬ (strEncode p).length > 72 := by omega
    have hmk : ¬ (¬ strStartsWith "$2b$" "$2" = true) := by decide
    rw [get_password_hash_take]
    unfold verify_password bcryptHashpw bcryptCheckpw
    dsimp only
    rw [if_neg hmk, if_neg hnot, hpq]
    simp
  · intro hgt
    have hmk : ¬ (¬ strStartsWith "$2b$" "$2" = true) := by decide
    rw [get_password_hash_take]
    unfold verify_password bcryptHashpw bcryptCheckpw
    dsimp only
    rw [if_neg hmk, if_pos hgt]

/-- Witness for C3 (amended): the 72-byte `pw72` agrees with the 73-byte
`pwA` on the first 72 bytes; they hash identically and `pw72` verifies
against `pwA`'s hash. -/
theorem c3_witness :
    get_password_hash pw72 [7] = get_password_hash pwA [7]
    ∧ verify_password pw72 (some (get_password_hash pwA [7])) = true := by
  have h := c3_hash_truncation_amended pw72 pwA [7] (by decide)
  exact ⟨h.1, h.2.1 (by decide)⟩

/-! ## C1 : area fallback vs the 400 at storage conversion -/

/-- Counterexample to C1 as stated: `badGeo` fails polygon parsing, yet
creating a site with it (project owned by the caller, no supplied area)
does not succeed with a 1.0 ha area — it fails with the 400
invalid-geometry error raised when the same unparseable GeoJSON is
converted for storage. -/
theorem c1_counterexample :
    shapeParse badGeo = none
    ∧ create_site { name := "s", area_hectares := none, metadata := none
                    project_id := 1, geometry := badGeo
                    carbon_sequestration_tonnes := none, biodiversity_score := none }
        uW1 dbW 0 0 2 cDraws = .error invalidGeometry := by
  exact ⟨rfl, rfl⟩

/-- Claim C1 as amended: when the GeoJSON fails polygon parsing, the area
estimator swallows the failure and returns the 1.0 ha fallback, but the
create-site operation itself then rejects the request with the 400
invalid-geometry error at the storage-conversion step (after the project
ownership check), and in particular never succeeds. -/
theorem c1_area_fallback_then_400 (site : SiteCreate) (u : UserRec) (db : DB)
    (t0 t1 : Int) (nid : Nat) (draws : Nat → Draws)
    (hparse : shapeParse site.geometry = none) :
    calculate_area_hectares site.geometry = 1
    ∧ (db.projects.find?
        (fun p => p.id == site.project_id && p.user_id == u.id) ≠ none →
        create_site site u db t0 t1 nid draws = .error invalidGeometry)
    ∧ (∀ db2 resp, create_site site u db t0 t1 nid draws ≠ .ok (db2, resp)) := by
  refine ⟨?_, ?_, ?_⟩
  · unfold calculate_area_hectares
    rw [hparse]
  · intro hfind
    unfold create_site
    cases hf : db.projects.find?
        (fun p => p.id == site.project_id && p.user_id == u.id) with
    | none => exact absurd hf hfind
    | some proj =>
      dsimp only
      rw [hparse]
  · intro db2 resp
    unfold create_site
    cases hf : db.projects.find?
        (fun p => p.id == site.project_id && p.user_id == u.id) with
    | none => simp
    | some proj =>
      dsimp only
      rw [hparse]
      simp

/-- Witness for C1 (amended): on the fixture database the unparseable
`badGeo` yields the 1.0 fallback from the estimator while create-site
returns the 400 error. -/
theorem c1_witness :
    calculate_area_hectares badGeo = 1
    ∧ create_site { name := "t", area_hectares := none, metadata := none
                    project_id := 1, geometry := badGeo
                    carbon_sequestration_tonnes := none, biodiversity_score := none }
        uW1 dbW 5 5 3 cDraws = .error invalidGeometry := by
  have h := c1_area_fallback_then_400
    { name := "t", area_hectares := none, metadata := none
      project_id := 1, geometry := badGeo
      carbon_sequestration_tonnes := none, biodiversity_score := none }
    uW1 dbW 5 5 3 cDraws (by rfl)
  exact ⟨h.1, h.2.1 (by decide)⟩

/-! ## C4 : token lifecycle -/

/-- Counterexample to C4 as stated: for the claims map
`[("sub", "nobody")]` — which contains a subject — the freshly issued
default-lifetime token is rejected, not accepted, immediately after
issuance when no user named `nobody` exists. -/
theorem c4_counterexample :
    claimGet [("sub", "nobody")] "sub" = some "nobody"
    ∧ get_current_user (create_access_token [("sub", "nobody")] none 0)
        { users := [], projects := [], sites := [], analytics := [] } 0
      = .error credentials_exception := by
  exact ⟨rfl, rfl⟩

/-- Claim C4 as amended: a token issued with no explicit lifetime expires
exactly 30 minutes (the configured default) after issuance; when the
subject resolves to an existing user, current-user resolution accepts the
token at issuance time; once evaluated strictly past the expiry it is
rejected with the 401 credentials error, and a token signed with any other
secret is always rejected with the same error. -/
theorem c4_token_lifecycle (data : List (String × String)) (username : String)
    (db : DB) (now : Int)
    (hsub : claimGet data "sub" = some username) :
    (create_access_token data none now).exp = now + 30 * 60
    ∧ (∀ user, db.users.find? (fun u => u.username == username) = some user →
        get_current_user (create_access_token data none now) db now = .ok user)
    ∧ (∀ t : Int, now + 30 * 60 < t →
        get_current_user (create_access_token data none now) db t
          = .error credentials_exception)
    ∧ (∀ tok : JwtToken, tok.secret ≠ settings.SECRET_KEY → ∀ t : Int,
        get_current_user tok db t = .error credentials_exception) := by
  refine ⟨rfl, ?_, ?_, ?_⟩
  · intro user huser
    have hdec : jwtDecode (create_access_token data none now)
        settings.SECRET_KEY [settings.ALGORITHM] now = some data := by
      unfold jwtDecode create_access_token timedeltaTruthy
      dsimp only
      rw [if_pos]
      simp only [beq_self_eq_true, Bool.true_and]
      have hexp : ¬ (now + settings.ACCESS_TOKEN_EXPIRE_MINUTES * 60 < now) := by
        have h30 : settings.ACCESS_TOKEN_EXPIRE_MINUTES = 30 := rfl
        rw [h30]
        omega
      simp [hexp]
    unfold get_current_user
    rw [hdec]
    dsimp only
    rw [hsub]
    dsimp only
    rw [huser]
  · intro t ht
    have hdec : jwtDecode (create_access_token data none now)
        settings.SECRET_KEY [settings.ALGORITHM] t = none := by
      unfold jwtDecode create_access_token timedeltaTruthy
      dsimp only
      rw [if_neg]
      intro hcond
      have hexp : now + settings.ACCESS_TOKEN_EXPIRE_MINUTES * 60 < t := by
        have h30 : settings.ACCESS_TOKEN_EXPIRE_MINUTES = 30 := rfl
        rw [h30]
        omega
      simp [hexp] at hcond
    unfold get_current_user
    rw [hdec]
  · intro tok hsecret t
    have hdec : jwtDecode tok settings.SECRET_KEY [settings.ALGORITHM] t = none := by
      unfold jwtDecode
      rw [if_neg]
      intro hcond
      simp only [Bool.and_eq_true] at hcond
      exact hsecret (by rw [← beq_iff_eq (a := tok.secret)]; exact hcond.1.1)
    unfold get_current_user
    rw [hdec]

/-- Witness for C4 (amended): a token for `alice` on the fixture database —
accepted at issuance, expired at second 2000, and rejected under a wrong
signing secret. -/
theorem c4_witness :
    (create_access_token [("sub", "alice")] none 0).exp = 0 + 30 * 60
    ∧ get_current_user (create_access_token [("sub", "alice")] none 0) dbW 0 = .ok uW1
    ∧ get_current_user (create_access_token [("sub", "alice")] none 0) dbW 2000
        = .error credentials_exception
    ∧ get_current_user
        { data := [("sub", "alice")], exp := 100000, secret := "wrong", alg := "HS256" }
        dbW 0 = .error credentials_exception := by
  have h := c4_token_lifecycle [("sub", "alice")] "alice" dbW 0 (by decide)
  exact ⟨h.1, h.2.1 uW1 (by decide), h.2.2.1 2000 (by decide),
    h.2.2.2 { data := [("sub", "alice")], exp := 100000, secret := "wrong", alg := "HS256" }
      (by decide) 0⟩

/-! ## C7 : analytics generator shape and bounds -/

/-- `pyRound` returns the floor or the floor plus one. -/
lemma pyRound_cases (x : ℚ) : pyRound x = ⌊x⌋ ∨ pyRound x = ⌊x⌋ + 1 := by
  unfold pyRound
  dsimp only
  split_ifs <;> simp

/-- `pyRound` respects integer lower bounds. -/
lemma le_pyRound (n : ℤ) (x : ℚ) (h : (n : ℚ) ≤ x) : n ≤ pyRound x := by
  have hf : n ≤ ⌊x⌋ := Int.le_floor.mpr h
  rcases pyRound_cases x with h1 | h1 <;> omega

/-- `pyRound` respects integer upper bounds. -/
lemma pyRound_le (n : ℤ) (x : ℚ) (h : x ≤ (n : ℚ)) : pyRound x ≤ n := by
  have hfl : ⌊x⌋ ≤ n := by
    have := Int.floor_le_floor h
    simpa using this
  unfold pyRound
  dsimp only
  split_ifs with h1 h2 h3
  · exact hfl
  · by_contra hc
    have hn : ⌊x⌋ = n := by omega
    rw [hn] at h2
    have hx : (n : ℚ) < x := by linarith
    linarith
  · exact hfl
  · by_contra hc
    have hn : ⌊x⌋ = n := by omega
    rw [hn] at h1 h2
    push_neg at h1 h2
    have hx : x = (n : ℚ) + 1 / 2 := by linarith
    rw [hx] at h
    norm_num at h

/-- `roundTo` respects scaled-integer lower bounds. -/
lemma le_roundTo (n : ℤ) (x : ℚ) (d : Nat) (h : (n : ℚ) ≤ x * 10 ^ d) :
    (n : ℚ) / 10 ^ d ≤ roundTo x d := by
  unfold roundTo
  have hp : (0 : ℚ) ≤ 10 ^ d := by positivity
  have := le_pyRound n (x * 10 ^ d) h
  have hc : (n : ℚ) ≤ (pyRound (x * 10 ^ d) : ℚ) := by exact_mod_cast this
  exact div_le_div_of_nonneg_right hc hp

/-- `roundTo` respects scaled-integer upper bounds. -/
lemma roundTo_le (n : ℤ) (x : ℚ) (d : Nat) (h : x * 10 ^ d ≤ (n : ℚ)) :
    roundTo x d ≤ (n : ℚ) / 10 ^ d := by
  unfold roundTo
  have hp : (0 : ℚ) ≤ 10 ^ d := by positivity
  have := pyRound_le n (x * 10 ^ d) h
  have hc : (pyRound (x * 10 ^ d) : ℚ) ≤ (n : ℚ) := by exact_mod_cast this
  exact div_le_div_of_nonneg_right hc hp

/-- The generator produces the loop body at every index below 12. -/
lemma generate_getD (site_id : Nat) (area : ℚ) (base : Int)
    (draws : Nat → Draws) (i : Nat) (hi : i < 12) :
    (_generate_analytics_for_site site_id area base draws).getD i defaultAnalyticsRec
      = analyticsRow site_id area base i (draws i) := by
  unfold _generate_analytics_for_site
  rw [List.getD_eq_getElem?_getD, List.getElem?_map, List.getElem?_range hi]
  rfl

/-- Claim C7: with `area_hectares = 10` and every uniform draw inside its
documented range, the generator yields exactly 12 rows dated `today − 30·i`
for `i = 0..11`, each with nonnegative carbon, biodiversity in [60, 95],
tree count in [1000, 3000], vegetation cover in [70, 95] and soil carbon
in [2.5, 4.5]. -/
theorem c7_analytics_shape (site_id : Nat) (base_date : Int) (draws : Nat → Draws)
    (h : ∀ i, i < 12 →
      2 ≤ (draws i).carbon ∧ (draws i).carbon ≤ 5
      ∧ 60 ≤ (draws i).bio ∧ (draws i).bio ≤ 95
      ∧ 100 ≤ (draws i).tree ∧ (draws i).tree ≤ 300
      ∧ 70 ≤ (draws i).veg ∧ (draws i).veg ≤ 95
      ∧ 5 / 2 ≤ (draws i).soil ∧ (draws i).soil ≤ 9 / 2) :
    (_generate_analytics_for_site site_id 10 base_date draws).length = 12
    ∧ (∀ i, i < 12 →
        ((_generate_analytics_for_site site_id 10 base_date draws).getD i
            defaultAnalyticsRec).date = base_date - 30 * (i : Int))
    ∧ (∀ i, i < 12 →
        let r := (_generate_analytics_for_site site_id 10 base_date draws).getD i
          defaultAnalyticsRec
        0 ≤ r.carbon_sequestration_tonnes
        ∧ 60 ≤ r.biodiversity_score ∧ r.biodiversity_score ≤ 95
        ∧ 1000 ≤ r.tree_count ∧ r.tree_count ≤ 3000
        ∧ 70 ≤ r.vegetation_cover_percentage ∧ r.vegetation_cover_percentage ≤ 95
        ∧ 5 / 2 ≤ r.soil_carbon_percentage ∧ r.soil_carbon_percentage ≤ 9 / 2) := by
  refine ⟨by simp [_generate_analytics_for_site], ?_, ?_⟩
  · intro i hi
    rw [generate_getD site_id 10 base_date draws i hi]
    rfl
  · intro i hi
    rw [generate_getD site_id 10 base_date draws i hi]
    obtain ⟨hc1, hc2, hb1, hb2, ht1, ht2, hv1, hv2, hs1, hs2⟩ := h i hi
    unfold analyticsRow
    dsimp only
    have hiq : (i : ℚ) ≤ 11 := by exact_mod_cast Nat.lt_succ_iff.mp hi
    refine ⟨?_, ?_, ?_, ?_, ?_, ?_, ?_, ?_, ?_⟩
    · -- carbon: the base is a product of nonnegative factors
      have hbase : 0 ≤ 10 * (draws i).carbon * ((12 : ℚ) - (i : ℚ)) / 12 := by
        have h1 : (0 : ℚ) ≤ (draws i).carbon := by linarith
        have h2 : (0 : ℚ) ≤ (12 : ℚ) - (i : ℚ) := by linarith
        positivity
      have := le_roundTo 0 (10 * (draws i).carbon * ((12 : ℚ) - (i : ℚ)) / 12) 2
        (by push_cast; nlinarith)
      simpa using this
    · have := le_roundTo 600 (draws i).bio 1 (by push_cast; nlinarith)
      norm_num at this
      exact this
    · have := roundTo_le 950 (draws i).bio 1 (by push_cast; nlinarith)
      norm_num at this
      exact this
    · -- tree count lower bound
      have hnn : (0 : ℚ) ≤ 10 * (draws i).tree := by nlinarith
      unfold pyInt
      rw [if_pos hnn]
      exact Int.le_floor.mpr (by push_cast; nlinarith)
    · have hnn : (0 : ℚ) ≤ 10 * (draws i).tree := by nlinarith
      unfold pyInt
      rw [if_pos hnn]
      have : (10 : ℚ) * (draws i).tree ≤ ((3000 : ℤ) : ℚ) := by push_cast; nlinarith
      have := Int.floor_le_floor this
      simpa using this
    · have := le_roundTo 700 (draws i).veg 1 (by push_cast; nlinarith)
      norm_num at this
      exact this
    · have := roundTo_le 950 (draws i).veg 1 (by push_cast; nlinarith)
      norm_num at this
      exact this
    · have := le_roundTo 250 (draws i).soil 2 (by push_cast; nlinarith)
      norm_num at this
      exact this
    · have := roundTo_le 450 (draws i).soil 2 (by push_cast; nlinarith)
      norm_num at this
      exact this

/-- Witness for C7: the constant low-end draws satisfy every range bound,
and the generator yields 12 rows whose first row is dated `base_date`. -/
theorem c7_witness :
    (_generate_analytics_for_site 1 10 0 cDraws).length = 12
    ∧ ((_generate_analytics_for_site 1 10 0 cDraws).getD 0 defaultAnalyticsRec).date
        = 0 - 30 * ((0 : Nat) : Int) := by
  have h := c7_analytics_shape 1 0 cDraws (by intro i hi; simp [cDraws]; norm_num)
  exact ⟨h.1, h.2.1 0 (by decide)⟩

/-! ## C9 : null equals absent; partial-update frame -/

/-- Claim C9: in update requests a JSON-null field validates exactly like
an absent field, so the two produce identical operation results; a `None`
field leaves the stored value unchanged (no update can reset an optional
field to null); and fields the handler never names — a site's geometry,
project id and creation timestamp, a project's owner and creation
timestamp — are unchanged by every update. -/
theorem c9_partial_update_null_semantics (pid sid : Nat) (u : UserRec) (db : DB)
    (wp : ProjectUpdateWire) (ws : SiteUpdateWire) :
    (update_project pid (parseProjectUpdate { wp with description := .null }) u db
      = update_project pid (parseProjectUpdate { wp with description := .absent }) u db)
    ∧ (update_site sid (parseSiteUpdate { ws with metadata := .null }) u db
      = update_site sid (parseSiteUpdate { ws with metadata := .absent }) u db)
    ∧ (∀ (p : ProjectRec) (pu : ProjectUpdate), pu.description = none →
        (updatedProject p pu).description = p.description)
    ∧ (∀ (s : SiteRec) (su : SiteUpdate), su.metadata = none →
        (updatedSite s su).site_metadata = s.site_metadata)
    ∧ (∀ (s : SiteRec) (su : SiteUpdate),
        (updatedSite s su).geometry = s.geometry
        ∧ (updatedSite s su).project_id = s.project_id
        ∧ (updatedSite s su).created_at = s.created_at
        ∧ (updatedSite s su).id = s.id)
    ∧ (∀ (p : ProjectRec) (pu : ProjectUpdate),
        (updatedProject p pu).user_id = p.user_id
        ∧ (updatedProject p pu).created_at = p.created_at
        ∧ (updatedProject p pu).id = p.id) := by
  refine ⟨rfl, rfl, ?_, ?_, ?_, ?_⟩
  · intro p pu hd
    unfold updatedProject
    rw [hd]
    cases pu.name <;> rfl
  · intro s su hm
    unfold updatedSite
    rw [hm]
    cases su.name <;> cases su.area_hectares
      <;> cases su.carbon_sequestration_tonnes <;> cases su.biodiversity_score <;> rfl
  · intro s su
    unfold updatedSite
    cases su.name <;> cases su.area_hectares <;> cases su.carbon_sequestration_tonnes
      <;> cases su.biodiversity_score <;> cases su.metadata
      <;> exact ⟨rfl, rfl, rfl, rfl⟩
  · intro p pu
    unfold updatedProject
    cases pu.name <;> cases pu.description <;> exact ⟨rfl, rfl, rfl⟩

/-- Witness for C9: a concrete site update naming only the name field
leaves the fixture site's geometry, project id, creation timestamp and
metadata unchanged, and a null description behaves like an absent one. -/
theorem c9_witness :
    (update_project 1
        (parseProjectUpdate { name := .value "n2", description := .null }) uW1 dbW
      = update_project 1
          (parseProjectUpdate { name := .value "n2", description := .absent }) uW1 dbW)
    ∧ (updatedSite siteW
        { name := some "s2", area_hectares := none
          carbon_sequestration_tonnes := none, biodiversity_score := none
          metadata := none }).geometry = siteW.geometry
    ∧ (updatedSite siteW
        { name := some "s2", area_hectares := none
          carbon_sequestration_tonnes := none, biodiversity_score := none
          metadata := none }).site_metadata = siteW.site_metadata := by
  have h := c9_partial_update_null_semantics 1 1 uW1 dbW
    { name := .value "n2", description := .null }
    { name := .value "s2", area_hectares := .absent
      carbon_sequestration_tonnes := .absent, biodiversity_score := .absent
      metadata := .absent }
  refine ⟨h.1, ?_, ?_⟩
  · exact (h.2.2.2.2.1 siteW
      { name := some "s2", area_hectares := none
        carbon_sequestration_tonnes := none, biodiversity_score := none
        metadata := none }).1
  · exact h.2.2.2.1 siteW
      { name := some "s2", area_hectares := none
        carbon_sequestration_tonnes := none, biodiversity_score := none
        metadata := none } rfl

end Darukaa
